import Mathlib

/-!
Shallow embedding of `mimerender` (src/mimerender.py, version 0.5.5), an HTTP
response content-negotiation helper.  Pure-Python data is modelled with plain
Lean types: Python exceptions become an error type `PyErr` threaded through
`Except`, dictionaries become ordered association lists (Python 3.7+ dicts are
insertion ordered), and strings are Lean `String`s, with the character-level
operations (`str.strip`, `str.lower`, `re.split`) implemented structurally
over `List Char` so that everything evaluates by kernel reduction.

The external `mimeparse` library (a declared dependency, not part of this
repository's sources) is modelled from the spec; see `best_match` below.
-/

namespace Mimerender

/-- Python exceptions that the embedded code can raise.  `mimeRenderException`
is the library's own `MimeRenderException(msg)`; `valueError`, `indexError`
and `stopIteration` are the builtins the code can hit; `mimeParseError` models
the parse exception raised by the external `mimeparse` library on a malformed
Accept header; `userExn` models an arbitrary user-defined exception object
(identified by a class id plus its textual payload), as thrown by handlers and
matched by the exception-mapping layer. -/
inductive PyErr where
  | mimeRenderException (msg : String)
  | valueError
  | indexError
  | stopIteration
  | mimeParseError (msg : String)
  | userExn (cls : Nat) (info : String)
deriving DecidableEq

/-- Python values that flow through the wrapper: `None`, strings (the format
override short names) and exception objects (the payload of the exception
mapping layer). -/
inductive Val where
  | none
  | str (s : String)
  | exn (e : PyErr)
deriving DecidableEq

/-- Python truthiness for the values the wrapper tests with `if not shortmime`:
`None` and the empty string are falsy, everything else truthy. -/
def valTruthy : Val → Bool
  | .none => false
  | .str s => s != ""
  | .exn _ => true

/-- The string carried by a `Val.str`; returns `""` on the other constructors
(only applied where the code has already established the value is a string). -/
def valStr : Val → String
  | .str s => s
  | _ => ""

/-- Truthiness of an optional string (Python `if x:` on a value that is either
`None` or a string). -/
def optTruthy : Option String → Bool
  | some s => s != ""
  | none => false

/-- Characters treated as whitespace by Python's `str.strip()` and by the
`\s` class of the `re` module (ASCII fragment; the header values involved are
ASCII). -/
def isWs (c : Char) : Bool :=
  c == ' ' || c == '\t' || c == '\n' || c == '\r' || c == '\x0b' || c == '\x0c'

/-- Python `str.strip()` over a character list: drop whitespace from both
ends. -/
def pyStrip (l : List Char) : List Char :=
  ((l.dropWhile isWs).reverse.dropWhile isWs).reverse

/-- Python `str.lower()` (ASCII fragment), producing the character list. -/
def lowerL (s : String) : List Char := s.data.map Char.toLower

/-- Worker for splitting a character list at a separator character, with the
accumulator holding the current token reversed. -/
def splitChAux (sep : Char) : List Char → List Char → List (List Char)
  | [], acc => [acc.reverse]
  | c :: rest, acc =>
    if c == sep then acc.reverse :: splitChAux sep rest []
    else splitChAux sep rest (c :: acc)

/-- Split a character list at every occurrence of `sep` (Python
`str.split(sep)`; always returns at least one token). -/
def splitCh (sep : Char) (l : List Char) : List (List Char) := splitChAux sep l []

/-- Tokens of a `Vary` header value under `re.split(r',\s*', v)`: split at
every comma and additionally drop the whitespace that followed each comma
(the regex consumes it).  The first token keeps leading whitespace exactly as
the regex does; call sites pass an already-stripped string. -/
def varySplit (l : List Char) : List (List Char) :=
  match splitCh ',' l with
  | [] => []
  | t :: ts => t :: ts.map (fun tok => tok.dropWhile isWs)

/-- Whether `'accept'` occurs among the comma-separated tokens of a `Vary`
header value, after Python's `v.strip().lower()` (line 98 of the source). -/
def varyHasAccept (v : String) : Bool :=
  (varySplit (pyStrip (lowerL v))).contains ("accept".data)

/-! ## The media-type registry (`_MIME_TYPES`, source lines 36-57) -/

/-- The process-wide registry `_MIME_TYPES`, in source order: short format
name to the ordered tuple of media types, first entry canonical. -/
def MIME_TYPES : List (String × List String) := [
  ("xml",   ["application/xml", "text/xml", "application/x-xml"]),
  ("json",  ["application/json"]),
  ("jsonld", ["application/ld+json"]),
  ("jsonp", ["application/javascript"]),
  ("bson",  ["application/bson"]),
  ("yaml",  ["application/x-yaml", "text/yaml"]),
  ("xhtml", ["application/xhtml+xml"]),
  ("html",  ["text/html"]),
  ("txt",   ["text/plain"]),
  ("csv",   ["text/csv"]),
  ("tsv",   ["text/tab-separated-values"]),
  ("rss",   ["application/rss+xml"]),
  ("rdf",   ["application/rdf+xml"]),
  ("atom",  ["application/atom+xml"]),
  ("m3u",   ["audio/x-mpegurl", "application/x-winamp-playlist",
             "audio/mpeg-url", "audio/mpegurl"]),
  ("pls",   ["audio/x-scpls"]),
  ("xspf",  ["application/xspf+xml"]),
  ("ical",  ["text/calendar"]),
  ("kml",   ["application/vnd.google-earth.kml+xml"]),
  ("kmz",   ["application/vnd.google-earth.kmz"])]

/-- Lookup in an insertion-ordered dictionary (first matching key wins). -/
def dictLookup {α : Type} (d : List (String × α)) (k : String) : Option α :=
  (d.find? (fun kv => kv.1 == k)).map (fun kv => kv.2)

/-- Insert into an insertion-ordered dictionary: replace the value in place if
the key exists, otherwise append. -/
def dictInsert {α : Type} (d : List (String × α)) (k : String) (v : α) :
    List (String × α) :=
  if (d.find? (fun kv => kv.1 == k)).isSome then
    d.map (fun kv => if kv.1 == k then (k, v) else kv)
  else d ++ [(k, v)]

/-- `_get_mime_types(shortname)` (source lines 73-77). -/
def get_mime_types (shortname : String) : Except PyErr (List String) :=
  match dictLookup MIME_TYPES shortname with
  | some l => .ok l
  | none => .error (.mimeRenderException
      ("No known mime types for \"" ++ shortname ++ "\""))

/-- `_get_mime_types` applied to an arbitrary Python value (the override can
come from an arbitrary positional argument); a non-string key misses the
dictionary, which the source turns into the same `MimeRenderException`. -/
def get_mime_types_val (v : Val) : Except PyErr (List String) :=
  match v with
  | .str s => get_mime_types s
  | _ => .error (.mimeRenderException "No known mime types for the given key")

/-- `_get_short_mime(mime)` (source lines 79-83): first registry entry whose
media-type tuple contains `mime`, in registration order. -/
def get_short_mime (mime : String) : Except PyErr String :=
  match MIME_TYPES.find? (fun kv => kv.2.contains mime) with
  | some kv => .ok kv.1
  | none => .error (.mimeRenderException
      ("No short mime for type \"" ++ mime ++ "\""))

/-! ## The best-match capability (external `mimeparse` library)

Modelled from the spec: the repository treats media-type parsing and ranking
as an external library capability — "best match of a requested media-type
ordering against a supported list" per RFC 7231 quality-value matching.  Per
the spec: a syntactically malformed Accept header (e.g. a bare non-token
string, one lacking the `/` separator) fails distinctly rather than silently;
each comma-separated media range carries an optional quality `q` in [0,1]
(modelled in thousandths to stay in exact arithmetic); a supported media type
matches a range when type and subtype each match literally or via `*`; the
most specific match wins (type and subtype matches outweigh parameter
matches), quality is ranked first, and the matcher favors later entries of
the supported list on ties; a best quality of zero means nothing acceptable,
reported as the empty string. -/

/-- A parsed media range: type, subtype, parameters, and quality in
thousandths. -/
structure MediaRange where
  mtype : List Char
  msub : List Char
  params : List (List Char × List Char)
deriving DecidableEq

/-- Partition a parameter token at its first `=` sign, if any. -/
def splitFirstEq : List Char → Option (List Char × List Char)
  | [] => Option.none
  | c :: rest =>
    if c == '=' then some ([], rest)
    else (splitFirstEq rest).map (fun p => (c :: p.1, p.2))

/-- Parse one `key=value` parameter, stripping both sides; tokens without an
`=` are ignored. -/
def parseParam (tok : List Char) : Option (List Char × List Char) :=
  (splitFirstEq tok).map (fun p => (pyStrip p.1, pyStrip p.2))

/-- Modelled from the spec: parse `type/subtype;param=value;...`; fails
(`mimeParseError`) unless the first `;`-part splits at `/` into exactly two
components. -/
def parseMimeType (s : String) :
    Except PyErr (List Char × List Char × List (List Char × List Char)) :=
  match splitCh ';' s.data with
  | [] => .error (.mimeParseError s)
  | full :: rest =>
    match splitCh '/' (pyStrip full) with
    | [t, sub] => .ok (pyStrip t, pyStrip sub, rest.filterMap parseParam)
    | _ => .error (.mimeParseError s)

/-- Value of a digit list as a natural number. -/
def digitsToNat (l : List Char) : Nat :=
  l.foldl (fun a c => a * 10 + (c.toNat - '0'.toNat)) 0

/-- Modelled from the spec: parse a quality value in [0,1] into thousandths;
anything unparseable falls back to quality 1. -/
def parseQ (l : List Char) : Nat :=
  match pyStrip l with
  | ['0'] => 0
  | ['1'] => 1000
  | '0' :: '.' :: ds =>
    if 1 ≤ ds.length && ds.length ≤ 3 && ds.all Char.isDigit then
      digitsToNat ds * 10 ^ (3 - ds.length)
    else 1000
  | _ => 1000

/-- Modelled from the spec: a media range together with its parsed quality. -/
def parseMediaRange (s : String) : Except PyErr (MediaRange × Nat) :=
  match parseMimeType s with
  | .error e => .error e
  | .ok (t, sub, ps) =>
    let q := match (ps.find? (fun kv => kv.1 == "q".data)).map (fun kv => kv.2) with
      | some qs => parseQ qs
      | none => 1000
    .ok (⟨t, sub, ps⟩, q)

/-- Number of non-`q` parameters of the target media type that the range
repeats with an equal value (ties the specificity ranking to parameters). -/
def paramMatchCount (tps rps : List (List Char × List Char)) : Int :=
  ((tps.filter (fun kv =>
    !(kv.1 == "q".data) &&
      ((rps.find? (fun kv2 => kv2.1 == kv.1)).map (fun kv2 => kv2.2)
        == some kv.2))).length : Int)

/-- Modelled from the spec: quality and specificity of the best matching range
for one supported media type; `(0, -1)` when no range matches. -/
def qualityAndFitness (target : String) (ranges : List (MediaRange × Nat)) :
    Except PyErr (Nat × Int) :=
  match parseMediaRange target with
  | .error e => .error e
  | .ok (t, _) =>
    .ok (ranges.foldl (fun best rq =>
      let r := rq.1
      let typeMatch := r.mtype == t.mtype || r.mtype == "*".data
        || t.mtype == "*".data
      let subMatch := r.msub == t.msub || r.msub == "*".data
        || t.msub == "*".data
      if typeMatch && subMatch then
        let fitness : Int :=
          (if r.mtype == t.mtype then (100 : Int) else 0) +
          (if r.msub == t.msub then (10 : Int) else 0) +
          paramMatchCount t.params r.params
        if fitness > best.2 then (rq.2, fitness) else best
      else best) ((0 : Nat), (-1 : Int)))

/-- Lexicographic comparison on (quality, fitness): true when the second is at
least as good, so that a fold replacing on `true` makes later supported
entries win ties. -/
def qfLe (a b : Nat × Int) : Bool :=
  a.1 < b.1 || (a.1 == b.1 && a.2 ≤ b.2)

/-- Modelled from the spec: best match of the supported media types against an
Accept header.  Malformed ranges fail distinctly; the result is the supported
entry with the best (quality, fitness), later entries winning ties; the empty
string signals that nothing was acceptable (best quality zero). -/
def best_match (supported : List String) (header : String) :
    Except PyErr String :=
  match (splitCh ',' header.data).mapM (fun tok => parseMediaRange ⟨tok⟩) with
  | .error e => .error e
  | .ok ranges =>
    match supported.mapM (fun m =>
        (qualityAndFitness m ranges).map (fun qf => (qf, m))) with
    | .error e => .error e
    | .ok [] => .error .indexError
    | .ok (w :: ws) =>
      let best := ws.foldl (fun b c => if qfLe b.1 c.1 then c else b) w
      .ok (if best.1.1 == 0 then "" else best.2)

/-- `_best_mime(supported, accept_string)` (source lines 85-88): `None` maps
to `None`, otherwise defer to the external best-match capability. -/
def _best_mime (supported : List String) (accept : Option String) :
    Except PyErr (Option String) :=
  match accept with
  | Option.none => .ok Option.none
  | some a => (best_match supported a).map some

/-! ## Header fixup (`_fix_headers`, source lines 90-107) -/

/-- Whether a header is a `Vary` header (`k.lower() == 'vary'`, source line
96). -/
def isVaryKey (kv : String × String) : Bool := lowerL kv.1 == "vary".data

/-- Whether a header is a `Content-Type` header (`k.lower() ==
'content-type'`, source line 100). -/
def isCTKey (kv : String × String) : Bool := lowerL kv.1 == "content-type".data

/-- One step of the header loop: a `Vary` header (case-insensitive) whose
token list lacks `accept` gets the literal suffix `,Accept`; every other
header passes through unchanged. -/
def fixEntry (kv : String × String) : String × String :=
  if isVaryKey kv && !varyHasAccept kv.2 then (kv.1, kv.2 ++ ",Accept")
  else kv

/-- `_fix_headers(headers, content_type)`: rewrite each header with
`fixEntry`, then append `Vary: Accept` when no `Vary` header was present and
`Content-Type: content_type` when no `Content-Type` header was present (the
single source loop is expressed as a map plus two membership scans, which is
observationally the same). -/
def fix_headers (headers : List (String × String)) (content_type : String) :
    List (String × String) :=
  let fixed := headers.map fixEntry
  let found_vary := headers.any isVaryKey
  let found_ct := headers.any isCTKey
  (fixed ++ (if found_vary then [] else [("Vary", "Accept")])) ++
    (if found_ct then [] else [("Content-Type", content_type)])

/-! ## Decoration-time configuration (`MimeRenderBase.__call__`, lines 120-189)

The global-default merging of lines 164-171 (instance-level fallbacks for
`default`, `override_arg_idx`, ...) is a trivial per-option `x or global_x`
and is taken as already applied: `mkConfig` receives the merged options. -/

/-- Structured payload handed to a renderer: the dictionary the handler
returned, whose entries become the renderer's keyword arguments. -/
abbrev Payload : Type := List (String × Val)

/-- A renderer: payload dictionary to response body. -/
abbrev Renderer : Type := Payload → String

/-- The `not_acceptable_callback`: Accept header and supported media types to
a (content type, entity) pair for the 406 response. -/
abbrev NacCb : Type := Option String → List String → String × String

/-- The per-decorated-handler negotiation configuration computed by
`__call__` before `wrap` is returned. -/
structure Config where
  supported : List String
  renderer_dict : List (String × Renderer)
  default_mime : String
  default_renderer : Renderer
  override_arg_idx : Option Int
  override_input_key : Option String
  charset : Option String
  nac : Option NacCb

/-- `get_renderer(mime)` (source lines 158-162). -/
def get_renderer (renderer_dict : List (String × Renderer)) (mime : String) :
    Except PyErr Renderer :=
  match dictLookup renderer_dict mime with
  | some r => .ok r
  | none => .error (.mimeRenderException
      ("No renderer for mime \"" ++ mime ++ "\""))

/-- The default-priority move (source lines 183-185): for each default media
type, last first, `supported.remove(mime); supported.append(mime)`.  Python
`list.remove` raises `ValueError` when the element is absent. -/
def moveToEnd (supported default_mimes : List String) :
    Except PyErr (List String) :=
  default_mimes.reverse.foldlM (fun s m =>
    if s.contains m then .ok (s.erase m ++ [m]) else .error .valueError)
    supported

/-- The supported-list and renderer-dictionary expansion of source lines
173-178: for each binding, append every registry media type of its format to
`supported` and point each at the binding's renderer. -/
def buildSupportedDict (renderers : List (String × Renderer)) :
    Except PyErr (List String × List (String × Renderer)) :=
  renderers.foldlM (fun acc sr =>
    match get_mime_types sr.1 with
    | .error e => .error e
    | .ok mimes =>
      .ok (acc.1 ++ mimes, mimes.foldl (fun d m => dictInsert d m sr.2) acc.2))
    ([], [])

/-- Decoration-time configuration (source lines 155-189): at least one
renderer is required (`ValueError` otherwise); the supported media types are
expanded from the registry; a (truthy) default format has its media types
moved to the end of the supported list and contributes its canonical media
type and renderer; otherwise the first entry of the renderer dictionary is
the default. -/
def mkConfig (renderers : List (String × Renderer)) (default : Option String)
    (override_arg_idx : Option Int) (override_input_key : Option String)
    (charset : Option String) (nac : Option NacCb) : Except PyErr Config :=
  if renderers.isEmpty then .error .valueError
  else
    match buildSupportedDict renderers with
    | .error e => .error e
    | .ok (supported, rd) =>
      if optTruthy default then
        match get_mime_types (default.getD "") with
        | .error e => .error e
        | .ok dms =>
          match moveToEnd supported dms with
          | .error e => .error e
          | .ok supported2 =>
            match dms with
            | [] => .error .indexError
            | dm :: _ =>
              match get_renderer rd dm with
              | .error e => .error e
              | .ok dr =>
                .ok ⟨supported2, rd, dm, dr, override_arg_idx,
                     override_input_key, charset, nac⟩
      else
        match rd with
        | [] => .error .stopIteration
        | (dm, dr) :: _ =>
          .ok ⟨supported, rd, dm, dr, override_arg_idx, override_input_key,
               charset, nac⟩

/-! ## Per-request dispatch (`wrapper`, source lines 193-252) -/

/-- The request as seen through the host adapter interface: the positional
arguments of the handler call, the request parameters, and the Accept header
(`Option.none` models an absent header). -/
structure Request where
  args : List Val
  params : List (String × String)
  accept : Option String

/-- Python indexing `args[i]` with negative indices counting from the end and
`IndexError` out of range. -/
def pyIndex (l : List Val) (i : Int) : Except PyErr Val :=
  let j := if i < 0 then i + (l.length : Int) else i
  if j < 0 then .error .indexError
  else
    match l.get? j.toNat with
    | some v => .ok v
    | Option.none => .error .indexError

/-- The override extraction of source lines 196-201: the positional argument
at `override_arg_idx` when configured, falling back to the request parameter
`override_input_key` when that value is falsy. -/
def resolveOverride (cfg : Config) (req : Request) : Except PyErr Val :=
  let step1 : Except PyErr Val :=
    match cfg.override_arg_idx with
    | some i => pyIndex req.args i
    | Option.none => .ok .none
  match step1 with
  | .error e => .error e
  | .ok v =>
    if !valTruthy v then
      match cfg.override_input_key with
      | some k =>
        if k != "" then
          .ok (match dictLookup req.params k with
            | some s => .str s
            | Option.none => .none)
        else .ok v
      | Option.none => .ok v
    else .ok v

/-- Outcome of the negotiation phase of the wrapper: either a selected
(short name, media type, renderer) triple, or the early 406 return built from
the `not_acceptable_callback`'s (content type, entity). -/
inductive NegResult where
  | render (shortmime mime : String) (r : Renderer)
  | notAcc (content_type entity : String)

/-- The negotiation phase of `wrapper` (source lines 196-221): explicit
override first (its format's canonical media type wins), else best match
against a present truthy Accept header, else the configured default; a truthy
result must have a renderer bound (`get_renderer` raises otherwise); a falsy
result goes to the `not_acceptable_callback` when configured and to the
precomputed default otherwise; finally the short name is backfilled from the
registry when no override supplied it. -/
def negotiatePart (cfg : Config) (req : Request) : Except PyErr NegResult :=
  match resolveOverride cfg req with
  | .error e => .error e
  | .ok shortmime =>
    let mimeE : Except PyErr (Option String) :=
      if valTruthy shortmime then
        match get_mime_types_val shortmime with
        | .error e => .error e
        | .ok [] => .error .indexError
        | .ok (m :: _) => .ok (some m)
      else .ok Option.none
    match mimeE with
    | .error e => .error e
    | .ok mime0 =>
      let mimeE2 : Except PyErr (Option String) :=
        if optTruthy mime0 then .ok mime0
        else if optTruthy req.accept then _best_mime cfg.supported req.accept
        else .ok (some cfg.default_mime)
      match mimeE2 with
      | .error e => .error e
      | .ok mime1 =>
        if optTruthy mime1 then
          let m := mime1.getD ""
          match get_renderer cfg.renderer_dict m with
          | .error e => .error e
          | .ok r =>
            match (if valTruthy shortmime then .ok (valStr shortmime)
                   else get_short_mime m) with
            | .error e => .error e
            | .ok s => .ok (.render s m r)
        else
          match cfg.nac with
          | some cb =>
            let p := cb req.accept cfg.supported
            .ok (.notAcc p.1 p.2)
          | Option.none =>
            let m := cfg.default_mime
            match (if valTruthy shortmime then .ok (valStr shortmime)
                   else get_short_mime m) with
            | .error e => .error e
            | .ok s => .ok (.render s m cfg.default_renderer)

/-- Per-request context variable store (the host adapter's
`_set_context_var` / `_clear_context_var` target); only key presence and
values matter, not slot order. -/
inductive CtxVal where
  | v (x : Val)
  | r (f : Renderer)

/-- The context store. -/
abbrev Ctx : Type := List (String × CtxVal)

/-- Set a context variable (dictionary insert). -/
def ctxSet (c : Ctx) (k : String) (x : CtxVal) : Ctx :=
  (k, x) :: c.filter (fun kv => kv.1 != k)

/-- Clear a context variable (`del`; clearing an absent key is not reached by
the wrapper, which clears exactly the keys it set). -/
def ctxClear (c : Ctx) (k : String) : Ctx :=
  c.filter (fun kv => kv.1 != k)

/-- The three context keys of `context_vars` (source lines 222-225), in
dictionary order. -/
def ctxKeys : List String :=
  ["mimerender_shortmime", "mimerender_mime", "mimerender_renderer"]

/-- Set the three context variables (source lines 226-227). -/
def ctxSetAll (c : Ctx) (short mime : String) (r : Renderer) : Ctx :=
  ctxSet (ctxSet (ctxSet c "mimerender_shortmime" (.v (.str short)))
    "mimerender_mime" (.v (.str mime))) "mimerender_renderer" (.r r)

/-- Clear the three context variables (source lines 230-232). -/
def ctxClearAll (c : Ctx) : Ctx :=
  ctxClear (ctxClear (ctxClear c "mimerender_shortmime") "mimerender_mime")
    "mimerender_renderer"

/-- The headers slot of a 3-tuple handler result: either a sequence of pairs
(on which `.items()` raises `AttributeError` and the value is kept as is) or
a key-to-value dictionary (whose insertion-ordered item list `.items()`
yields). -/
inductive HeadersArg where
  | hlist (l : List (String × String))
  | hdict (l : List (String × String))

/-- The try/except of source lines 240-243: a dictionary is replaced by its
item list, a pair sequence is left unchanged. -/
def headersToList : HeadersArg → List (String × String)
  | .hlist l => l
  | .hdict l => l

/-- Shapes a handler can return (source lines 237-249 branch on tuple length;
a non-tuple result is the bare dictionary case).  `tupMore` stands for any
tuple of length at least four. -/
inductive HandlerResult where
  | mapping (p : Payload)
  | tup0
  | tup1 (p : Payload)
  | tup2 (p : Payload) (status : String)
  | tup3 (p : Payload) (status : String) (headers : HeadersArg)
  | tupMore (extra : Nat)

/-- A wrapped handler: positional arguments to a result or a raised
exception. -/
abbrev Target : Type := List Val → Except PyErr HandlerResult

/-- The response normalizer (source lines 233-250 without the rendering):
bare dictionary and 1-tuples keep status `200 OK` and no extra headers,
2-tuples carry a status, 3-tuples carry status and headers (a headers
dictionary is normalized to its item list, already reflected in
`headerList`), and any other tuple length raises `ValueError`. -/
def normalize (result : HandlerResult) :
    Except PyErr (Payload × String × List (String × String)) :=
  match result with
  | .mapping p => .ok (p, "200 OK", [])
  | .tup0 => .error .valueError
  | .tup1 p => .ok (p, "200 OK", [])
  | .tup2 p st => .ok (p, st, [])
  | .tup3 p st hs => .ok (p, st, headersToList hs)
  | .tupMore _ => .error .valueError

/-- The final response triple handed to the host adapter's `_make_response`. -/
structure Response where
  content : String
  headers : List (String × String)
  status : String
deriving DecidableEq

/-- The charset suffix of source line 234: `'; charset=%s' % charset` when a
truthy charset is configured. -/
def contentTypeOf (charset : Option String) (mime : String) : String :=
  match charset with
  | some c => if c != "" then mime ++ "; charset=" ++ c else mime
  | Option.none => mime

/-- The per-request wrapper (source lines 193-252): negotiate, set the
context variables, call the handler under a `finally` that clears them on
both the normal and the raising path, normalize the result, render, fix the
headers and build the response.  Errors before the context is set (including
the early 406 return) leave the context untouched. -/
def wrapper (cfg : Config) (target : Target) (req : Request) (ctx0 : Ctx) :
    Except PyErr Response × Ctx :=
  match negotiatePart cfg req with
  | .error e => (.error e, ctx0)
  | .ok (.notAcc ct entity) =>
    (.ok ⟨entity, [("Content-Type", ct)], "406 Not Acceptable"⟩, ctx0)
  | .ok (.render short mime r) =>
    let ctx1 := ctxSetAll ctx0 short mime r
    match target req.args with
    | .error e => (.error e, ctxClearAll ctx1)
    | .ok result =>
      let ctx2 := ctxClearAll ctx1
      let content_type := contentTypeOf cfg.charset mime
      match normalize result with
      | .error e => (.error e, ctx2)
      | .ok (payload, status, headers) =>
        (.ok ⟨r payload, fix_headers headers content_type, status⟩, ctx2)

/-! ## Exception mapping layer (`map_exceptions`, source lines 262-283) -/

/-- The helper handler of `map_exceptions` (source lines 268-270):
`helper(e, status)` returns `(dict(exception=e), status)`. -/
def helperTarget : Target := fun args =>
  match args with
  | [ve, .str st] => .ok (.tup2 [("exception", ve)] st)
  | _ => .error .valueError

/-- `map_exceptions(mapping, ...)` (source lines 262-283): run the inner
(already wrapped) handler; on any exception scan the (class, status) rules in
order and, at the first rule whose class matches the exception under the
ambient `isinstance` relation `isinst`, re-enter the negotiation wrapper with
the helper handler called as `helper(e, status)`; re-raise unchanged when no
rule matches. -/
def map_exceptions (mapping : List (Nat × String))
    (isinst : PyErr → Nat → Bool) (cfg : Config)
    (params : List (String × String)) (accept : Option String)
    (inner : List Val → Ctx → Except PyErr Response × Ctx)
    (args : List Val) (ctx0 : Ctx) : Except PyErr Response × Ctx :=
  match inner args ctx0 with
  | (.ok resp, c) => (.ok resp, c)
  | (.error e, c) =>
    match mapping.find? (fun rule => isinst e rule.1) with
    | some rule =>
      wrapper cfg helperTarget ⟨[Val.exn e, Val.str rule.2], params, accept⟩ c
    | Option.none => (.error e, c)

/-! ## Lemmas about the `Vary` token machinery -/

theorem isWs_comma : isWs ',' = false := rfl

theorem isWs_t : isWs 't' = false := rfl

theorem isWs_a : isWs 'a' = false := rfl

theorem dropWhile_append_comma (x r : List Char) :
    (x ++ ',' :: r).dropWhile isWs = x.dropWhile isWs ++ ',' :: r := by
  induction x with
  | nil => simp [List.dropWhile_cons, isWs_comma]
  | cons c cs ih =>
    by_cases h : isWs c
    · simp [List.dropWhile_cons, h, ih]
    · simp [List.dropWhile_cons, h]

theorem pyStrip_append_accept (x : List Char) :
    pyStrip (x ++ ',' :: "accept".data) =
      x.dropWhile isWs ++ ',' :: "accept".data := by
  unfold pyStrip
  rw [dropWhile_append_comma]
  have h : (x.dropWhile isWs ++ ',' :: "accept".data).reverse
      = 't' :: ("pecca,".data ++ (x.dropWhile isWs).reverse) := by
    rw [List.reverse_append]
    have hc : (',' :: "accept".data).reverse = 't' :: "pecca,".data := by decide
    rw [hc, List.cons_append]
  rw [h, List.dropWhile_cons, isWs_t]
  simp only [Bool.false_eq_true, if_false]
  rw [← h, List.reverse_reverse]

theorem splitChAux_accept (xs acc : List Char) :
    ∃ t ts, splitChAux ',' (xs ++ ',' :: "accept".data) acc = t :: ts ∧
      "accept".data ∈ ts := by
  induction xs generalizing acc with
  | nil =>
    refine ⟨acc.reverse, ["accept".data], ?_, by simp⟩
    have h : splitChAux ',' "accept".data [] = ["accept".data] := by decide
    simp [splitChAux, h]
  | cons c cs ih =>
    by_cases h : c == ','
    · obtain ⟨t, ts, heq, hmem⟩ := ih []
      exact ⟨acc.reverse, t :: ts, by simp [splitChAux, h, heq],
        List.mem_cons_of_mem t hmem⟩
    · obtain ⟨t, ts, heq, hmem⟩ := ih (c :: acc)
      exact ⟨t, ts, by simp [splitChAux, h, heq], hmem⟩

theorem lowerL_append_Accept (v : String) :
    lowerL (v ++ ",Accept") = lowerL v ++ ',' :: "accept".data := by
  unfold lowerL
  rw [String.data_append, List.map_append]
  have h : ",Accept".data.map Char.toLower = ',' :: "accept".data := by decide
  rw [h]

theorem varyHasAccept_append (v : String) :
    varyHasAccept (v ++ ",Accept") = true := by
  unfold varyHasAccept
  rw [lowerL_append_Accept, pyStrip_append_accept]
  obtain ⟨t, ts, heq, hmem⟩ :=
    splitChAux_accept ((lowerL v).dropWhile isWs) []
  unfold varySplit splitCh
  rw [heq]
  have hself : "accept".data.dropWhile isWs = "accept".data := by decide
  have hmem2 : "accept".data ∈
      t :: ts.map (fun tok => tok.dropWhile isWs) := by
    refine List.mem_cons_of_mem t ?_
    have := List.mem_map_of_mem (fun tok => tok.dropWhile isWs) hmem
    simpa [hself] using this
  exact List.elem_iff.mpr hmem2

/-! ## Lemmas about `_fix_headers` -/

theorem fixEntry_fst (kv : String × String) : (fixEntry kv).1 = kv.1 := by
  unfold fixEntry
  by_cases h : isVaryKey kv && !varyHasAccept kv.2
  · simp [h]
  · simp [h]

theorem isVaryKey_fixEntry (kv : String × String) :
    isVaryKey (fixEntry kv) = isVaryKey kv := by
  unfold isVaryKey
  rw [fixEntry_fst]

theorem isCTKey_fixEntry (kv : String × String) :
    isCTKey (fixEntry kv) = isCTKey kv := by
  unfold isCTKey
  rw [fixEntry_fst]

theorem fixEntry_idem (kv : String × String) :
    fixEntry (fixEntry kv) = fixEntry kv := by
  obtain ⟨k, v⟩ := kv
  by_cases h1 : isVaryKey (k, v)
  · by_cases h2 : varyHasAccept v
    · unfold fixEntry
      simp [h1, h2]
    · have hstep : fixEntry (k, v) = (k, v ++ ",Accept") := by
        unfold fixEntry
        simp [h1, h2]
      rw [hstep]
      unfold fixEntry
      have h1b : isVaryKey (k, v ++ ",Accept") = true := by
        unfold isVaryKey at h1 ⊢
        exact h1
      simp [h1b, varyHasAccept_append]
  · unfold fixEntry
    simp [h1]

theorem map_fixEntry_idem (l : List (String × String)) :
    (l.map fixEntry).map fixEntry = l.map fixEntry := by
  induction l with
  | nil => rfl
  | cons kv rest ih => simp [fixEntry_idem, ih]

theorem anyVary_map_fixEntry (l : List (String × String)) :
    (l.map fixEntry).any isVaryKey = l.any isVaryKey := by
  induction l with
  | nil => rfl
  | cons kv rest ih => simp [List.any_cons, isVaryKey_fixEntry, ih]

theorem anyCT_map_fixEntry (l : List (String × String)) :
    (l.map fixEntry).any isCTKey = l.any isCTKey := by
  induction l with
  | nil => rfl
  | cons kv rest ih => simp [List.any_cons, isCTKey_fixEntry, ih]

theorem fixEntry_vary_accept :
    fixEntry ("Vary", "Accept") = ("Vary", "Accept") := by decide

theorem isVaryKey_vary_accept : isVaryKey ("Vary", "Accept") = true := by decide

theorem isCTKey_vary_accept : isCTKey ("Vary", "Accept") = false := by decide

theorem isVaryKey_content_type (ct : String) :
    isVaryKey ("Content-Type", ct) = false := by
  show (lowerL "Content-Type" == "vary".data) = false
  decide

theorem isCTKey_content_type (ct : String) :
    isCTKey ("Content-Type", ct) = true := by
  show (lowerL "Content-Type" == "content-type".data) = true
  decide

theorem fixEntry_content_type (ct : String) :
    fixEntry ("Content-Type", ct) = ("Content-Type", ct) := by
  unfold fixEntry
  simp [isVaryKey_content_type]

theorem fix_headers_map_fixEntry (headers : List (String × String))
    (ct : String) :
    (fix_headers headers ct).map fixEntry = fix_headers headers ct := by
  unfold fix_headers
  rw [List.map_append, List.map_append, map_fixEntry_idem]
  cases hv : headers.any isVaryKey <;> cases hc : headers.any isCTKey <;>
    simp [fixEntry_vary_accept, fixEntry_content_type]

theorem fix_headers_any_vary (headers : List (String × String))
    (ct : String) : (fix_headers headers ct).any isVaryKey = true := by
  unfold fix_headers
  rw [List.any_append, List.any_append, anyVary_map_fixEntry]
  cases hv : headers.any isVaryKey <;>
    simp [isVaryKey_vary_accept]

theorem fix_headers_any_ct (headers : List (String × String))
    (ct : String) : (fix_headers headers ct).any isCTKey = true := by
  unfold fix_headers
  rw [List.any_append, List.any_append, anyCT_map_fixEntry]
  cases hc : headers.any isCTKey <;>
    simp [isCTKey_content_type]

theorem fix_headers_fixed (out : List (String × String)) (ct : String)
    (h1 : out.map fixEntry = out) (h2 : out.any isVaryKey = true)
    (h3 : out.any isCTKey = true) : fix_headers out ct = out := by
  unfold fix_headers
  rw [h1]
  simp [h2, h3]

/-- Claim C6: header fixup is idempotent — applying `_fix_headers` to its own
output (with the same negotiated content type) returns that output unchanged,
so no duplicate `Vary` or `Content-Type` header is ever introduced. -/
theorem C6_fix_headers_idempotent (headers : List (String × String))
    (content_type : String) :
    fix_headers (fix_headers headers content_type) content_type =
      fix_headers headers content_type :=
  fix_headers_fixed (fix_headers headers content_type) content_type
    (fix_headers_map_fixEntry headers content_type)
    (fix_headers_any_vary headers content_type)
    (fix_headers_any_ct headers content_type)

/-- Claim C7: the `Vary` merge — a `Vary` header (matched case-insensitively)
whose comma-separated tokens (whitespace after each comma consumed, matching
case-insensitively) lack `Accept` gets the literal suffix `,Accept` appended
to its otherwise untouched value; when `Accept` is already among the tokens
the value is left unchanged.  In particular `Vary: X` becomes `Vary:
X,Accept` and `Vary: Accept,X` stays unchanged, token matching is
case-insensitive and tolerant of whitespace after commas (`ACCEPT, X`
counts), and a mere substring such as `x-accept` does not count. -/
theorem C7_vary_merge :
    (∀ (hs : List (String × String)) (ct k v : String),
      (k, v) ∈ hs → lowerL k = "vary".data → varyHasAccept v = false →
      (k, v ++ ",Accept") ∈ fix_headers hs ct) ∧
    (∀ (hs : List (String × String)) (ct k v : String),
      (k, v) ∈ hs → lowerL k = "vary".data → varyHasAccept v = true →
      (k, v) ∈ fix_headers hs ct) ∧
    fix_headers [("Vary", "X")] "text/xml" =
      [("Vary", "X,Accept"), ("Content-Type", "text/xml")] ∧
    fix_headers [("Vary", "Accept,X")] "text/xml" =
      [("Vary", "Accept,X"), ("Content-Type", "text/xml")] ∧
    varyHasAccept "ACCEPT, X" = true ∧
    varyHasAccept "x-accept" = false := by
  refine ⟨?_, ?_, by decide, by decide, by decide, by decide⟩
  · intro hs ct k v hmem hk hv
    have hfix : fixEntry (k, v) = (k, v ++ ",Accept") := by
      unfold fixEntry isVaryKey
      simp [hk, hv]
    unfold fix_headers
    refine List.mem_append_left _ (List.mem_append_left _ ?_)
    have := List.mem_map_of_mem fixEntry hmem
    rwa [hfix] at this
  · intro hs ct k v hmem hk hv
    have hfix : fixEntry (k, v) = (k, v) := by
      unfold fixEntry isVaryKey
      simp [hk, hv]
    unfold fix_headers
    refine List.mem_append_left _ (List.mem_append_left _ ?_)
    have := List.mem_map_of_mem fixEntry hmem
    rwa [hfix] at this

/-- Witness for C7 at concrete inputs: both merge directions applied through
the theorem. -/
theorem C7_vary_merge_witness :
    ("Vary", "X,Accept") ∈ fix_headers [("Vary", "X")] "text/xml" ∧
    ("Vary", "Accept,X") ∈ fix_headers [("Vary", "Accept,X")] "text/xml" :=
  ⟨C7_vary_merge.1 [("Vary", "X")] "text/xml" "Vary" "X" (by decide)
      (by decide) (by decide),
   C7_vary_merge.2.1 [("Vary", "Accept,X")] "text/xml" "Vary" "Accept,X"
      (by decide) (by decide) (by decide)⟩

/-! ## Path equations for the per-request wrapper -/

theorem wrapper_neg_err (cfg : Config) (target : Target) (req : Request)
    (ctx0 : Ctx) (e : PyErr) (hneg : negotiatePart cfg req = .error e) :
    wrapper cfg target req ctx0 = (.error e, ctx0) := by
  simp [wrapper, hneg]

theorem wrapper_notAcc (cfg : Config) (target : Target) (req : Request)
    (ctx0 : Ctx) (ct entity : String)
    (hneg : negotiatePart cfg req = .ok (.notAcc ct entity)) :
    wrapper cfg target req ctx0 =
      (.ok ⟨entity, [("Content-Type", ct)], "406 Not Acceptable"⟩, ctx0) := by
  simp [wrapper, hneg]

theorem wrapper_target_err (cfg : Config) (target : Target) (req : Request)
    (ctx0 : Ctx) (short mime : String) (r : Renderer) (e : PyErr)
    (hneg : negotiatePart cfg req = .ok (.render short mime r))
    (htgt : target req.args = .error e) :
    wrapper cfg target req ctx0 =
      (.error e, ctxClearAll (ctxSetAll ctx0 short mime r)) := by
  simp [wrapper, hneg, htgt]

theorem wrapper_norm_err (cfg : Config) (target : Target) (req : Request)
    (ctx0 : Ctx) (short mime : String) (r : Renderer)
    (result : HandlerResult) (e : PyErr)
    (hneg : negotiatePart cfg req = .ok (.render short mime r))
    (htgt : target req.args = .ok result)
    (hnorm : normalize result = .error e) :
    wrapper cfg target req ctx0 =
      (.error e, ctxClearAll (ctxSetAll ctx0 short mime r)) := by
  simp [wrapper, hneg, htgt, hnorm]

theorem wrapper_render_ok (cfg : Config) (target : Target) (req : Request)
    (ctx0 : Ctx) (short mime : String) (r : Renderer) (p : Payload)
    (st : String) (hs : List (String × String)) (result : HandlerResult)
    (hneg : negotiatePart cfg req = .ok (.render short mime r))
    (htgt : target req.args = .ok result)
    (hnorm : normalize result = .ok (p, st, hs)) :
    wrapper cfg target req ctx0 =
      (.ok ⟨r p, fix_headers hs (contentTypeOf cfg.charset mime), st⟩,
       ctxClearAll (ctxSetAll ctx0 short mime r)) := by
  simp [wrapper, hneg, htgt, hnorm]

/-! ## Concrete fixtures for witnesses and counterexamples -/

/-- A concrete xml renderer. -/
def rXml : Renderer := fun _ => "xml-body"

/-- A concrete json renderer. -/
def rJson : Renderer := fun _ => "json-body"

/-- A concrete txt renderer. -/
def rTxt : Renderer := fun _ => "txt-body"

/-- Extract a successfully built configuration (all fixture configurations
below do build). -/
def getCfg (e : Except PyErr Config) : Config :=
  match e with
  | .ok c => c
  | .error _ =>
    ⟨[], [], "", fun _ => "", Option.none, Option.none, Option.none,
     Option.none⟩

/-- A concrete `not_acceptable_callback` (mirrors the one in the repository's
tests, with a fixed body). -/
def nacDemo : NacCb := fun _ _ => ("text/plain", "Available Content Types")

/-- xml+json bindings, default json, with a `not_acceptable_callback`
(mirrors `test_not_acceptable`). -/
def cfgNac : Config :=
  getCfg (mkConfig [("xml", rXml), ("json", rJson)] (some "json")
    Option.none Option.none Option.none (some nacDemo))

/-- A single xml binding and no default (mirrors `test_single_variant`). -/
def cfgXmlOnly : Config :=
  getCfg (mkConfig [("xml", rXml)] Option.none Option.none Option.none
    Option.none Option.none)

/-! ## Claim C5 (corrected) -/

/-- Counterexample to claim C5 as stated: on the 406 path built from the
`not_acceptable_callback`'s result, the emitted response carries only the
callback's `Content-Type` header — no `Vary` header at all (the source
returns at line 215 without running `_fix_headers`). -/
theorem C5_counterexample_406_lacks_vary :
    (wrapper cfgNac (fun _ => .ok (.mapping []))
        ⟨[], [], some "text/plain"⟩ []).1 =
      .ok ⟨"Available Content Types", [("Content-Type", "text/plain")],
           "406 Not Acceptable"⟩ ∧
    ([("Content-Type", "text/plain")] : List (String × String)).any isVaryKey
      = false := by
  constructor
  · rfl
  · decide

theorem fix_headers_exists_vary (headers : List (String × String))
    (ct : String) :
    ∃ kv ∈ fix_headers headers ct,
      isVaryKey kv = true ∧ varyHasAccept kv.2 = true := by
  cases hv : headers.any isVaryKey
  · refine ⟨("Vary", "Accept"), ?_, by decide, by decide⟩
    unfold fix_headers
    simp [hv]
  · obtain ⟨kv0, hmem, hp⟩ := List.any_eq_true.mp hv
    obtain ⟨k, v⟩ := kv0
    cases hva : varyHasAccept v
    · have hfix : fixEntry (k, v) = (k, v ++ ",Accept") := by
        unfold fixEntry
        simp [hp, hva]
      refine ⟨(k, v ++ ",Accept"), ?_, hp, varyHasAccept_append v⟩
      unfold fix_headers
      refine List.mem_append_left _ (List.mem_append_left _ ?_)
      have := List.mem_map_of_mem fixEntry hmem
      rwa [hfix] at this
    · have hfix : fixEntry (k, v) = (k, v) := by
        unfold fixEntry
        simp [hva]
      refine ⟨(k, v), ?_, hp, hva⟩
      unfold fix_headers
      refine List.mem_append_left _ (List.mem_append_left _ ?_)
      have := List.mem_map_of_mem fixEntry hmem
      rwa [hfix] at this

theorem fix_headers_exists_ct (headers : List (String × String))
    (ct : String) :
    ∃ kv ∈ fix_headers headers ct, isCTKey kv = true := by
  cases hc : headers.any isCTKey
  · refine ⟨("Content-Type", ct), ?_, isCTKey_content_type ct⟩
    unfold fix_headers
    simp [hc]
  · obtain ⟨kv0, hmem, hp⟩ := List.any_eq_true.mp hc
    refine ⟨fixEntry kv0, ?_, by rw [isCTKey_fixEntry]; exact hp⟩
    unfold fix_headers
    exact List.mem_append_left _ (List.mem_append_left _
      (List.mem_map_of_mem fixEntry hmem))

/-- Amended claim C5: every response built on the renderer path carries a
`Content-Type` header and a `Vary` header whose token list contains `Accept`;
but the 406 Not Acceptable response built from the
`not_acceptable_callback`'s result carries exactly one header — the
callback's `Content-Type` — and no `Vary` header. -/
theorem C5_amended_headers_contract :
    (∀ (cfg : Config) (target : Target) (req : Request) (ctx0 : Ctx)
        (short mime : String) (r : Renderer) (resp : Response) (c : Ctx),
      negotiatePart cfg req = .ok (.render short mime r) →
      wrapper cfg target req ctx0 = (.ok resp, c) →
      (∃ kv ∈ resp.headers, isCTKey kv = true) ∧
      (∃ kv ∈ resp.headers, isVaryKey kv = true ∧ varyHasAccept kv.2 = true)) ∧
    (∀ (cfg : Config) (target : Target) (req : Request) (ctx0 : Ctx)
        (ct entity : String),
      negotiatePart cfg req = .ok (.notAcc ct entity) →
      wrapper cfg target req ctx0 =
        (.ok ⟨entity, [("Content-Type", ct)], "406 Not Acceptable"⟩, ctx0)) := by
  constructor
  · intro cfg target req ctx0 short mime r resp c hneg hw
    cases htgt : target req.args with
    | error e =>
      have hw2 := wrapper_target_err cfg target req ctx0 short mime r e
        hneg htgt
      rw [hw2] at hw
      simp at hw
    | ok result =>
      cases hnorm : normalize result with
      | error e =>
        have hw2 := wrapper_norm_err cfg target req ctx0 short mime r result
          e hneg htgt hnorm
        rw [hw2] at hw
        simp at hw
      | ok triple =>
        obtain ⟨p, st, hs⟩ := triple
        have hw2 := wrapper_render_ok cfg target req ctx0 short mime r p st
          hs result hneg htgt hnorm
        rw [hw2] at hw
        simp only [Prod.mk.injEq, Except.ok.injEq] at hw
        obtain ⟨hresp, -⟩ := hw
        rw [← hresp]
        exact ⟨fix_headers_exists_ct hs (contentTypeOf cfg.charset mime),
               fix_headers_exists_vary hs (contentTypeOf cfg.charset mime)⟩
  · intro cfg target req ctx0 ct entity hneg
    exact wrapper_notAcc cfg target req ctx0 ct entity hneg

/-- Witness for the amended C5 at concrete inputs: a rendered 200 response
(whose headers do carry `Content-Type` and an Accept-bearing `Vary`) and the
406 response of `cfgNac` (whose single header is the callback's
`Content-Type`). -/
theorem C5_amended_headers_contract_witness :
    ((∃ kv ∈ (⟨"xml-body",
          [("Vary", "Accept"), ("Content-Type", "application/xml")],
          "200 OK"⟩ : Response).headers, isCTKey kv = true) ∧
     (∃ kv ∈ (⟨"xml-body",
          [("Vary", "Accept"), ("Content-Type", "application/xml")],
          "200 OK"⟩ : Response).headers,
        isVaryKey kv = true ∧ varyHasAccept kv.2 = true)) ∧
    wrapper cfgNac (fun _ => .ok (.mapping []))
        ⟨[], [], some "text/plain"⟩ [] =
      (.ok ⟨"Available Content Types", [("Content-Type", "text/plain")],
            "406 Not Acceptable"⟩, []) :=
  ⟨C5_amended_headers_contract.1 cfgXmlOnly (fun _ => .ok (.mapping []))
      ⟨[], [], Option.none⟩ [] "xml" "application/xml" rXml
      ⟨"xml-body", [("Vary", "Accept"), ("Content-Type", "application/xml")],
       "200 OK"⟩ [] rfl rfl,
   C5_amended_headers_contract.2 cfgNac (fun _ => .ok (.mapping []))
      ⟨[], [], some "text/plain"⟩ [] "text/plain" "Available Content Types"
      rfl⟩

/-! ## Claim C1 (override always wins) -/

theorem resolveOverride_accept (cfg : Config) (args : List Val)
    (params : List (String × String)) (a b : Option String) :
    resolveOverride cfg ⟨args, params, a⟩ =
      resolveOverride cfg ⟨args, params, b⟩ := rfl

/-- Claim C1: whenever the explicit format override (positional argument or
request parameter, as resolved by `resolveOverride`) is a non-empty string
that resolves through the registry to a canonical media type with a bound
renderer, negotiation selects that canonical media type and renderer for
every Accept header whatsoever — the Accept header is never consulted. -/
theorem C1_override_always_wins :
    ∀ (cfg : Config) (args : List Val) (params : List (String × String))
      (s m : String) (ms : List String) (r : Renderer),
      resolveOverride cfg ⟨args, params, Option.none⟩ = .ok (.str s) →
      s ≠ "" →
      get_mime_types s = .ok (m :: ms) → m ≠ "" →
      dictLookup cfg.renderer_dict m = some r →
      ∀ accept : Option String,
        negotiatePart cfg ⟨args, params, accept⟩ = .ok (.render s m r) := by
  intro cfg args params s m ms r hov hs hmt hm hr accept
  have hov2 : resolveOverride cfg ⟨args, params, accept⟩ = .ok (.str s) := by
    rw [resolveOverride_accept cfg args params accept Option.none]
    exact hov
  have hvt : valTruthy (.str s) = true := by simp [valTruthy, hs]
  have hot : optTruthy (some m) = true := by simp [optTruthy, hm]
  simp [negotiatePart, hov2, hvt, get_mime_types_val, hmt, hot,
    get_renderer, hr, valStr]

/-- xml+json bindings with the positional override at index `-1` (as in the
module docstring). -/
def cfgOverrideIdx : Config :=
  getCfg (mkConfig [("xml", rXml), ("json", rJson)] Option.none
    (some (-1 : Int)) Option.none Option.none Option.none)

/-- Witness for C1: the override `json` at positional index -1 selects
`application/json` and `rJson`, both under a well-formed Accept header asking
for xml and under a malformed Accept header — the header is never looked
at. -/
theorem C1_override_always_wins_witness :
    negotiatePart cfgOverrideIdx
        ⟨[Val.str "json"], [], some "application/xml"⟩ =
      .ok (.render "json" "application/json" rJson) ∧
    negotiatePart cfgOverrideIdx ⟨[Val.str "json"], [], some "text"⟩ =
      .ok (.render "json" "application/json" rJson) :=
  ⟨C1_override_always_wins cfgOverrideIdx [Val.str "json"] [] "json"
      "application/json" [] rJson rfl (by decide) rfl (by decide) rfl
      (some "application/xml"),
   C1_override_always_wins cfgOverrideIdx [Val.str "json"] [] "json"
      "application/json" [] rJson rfl (by decide) rfl (by decide) rfl
      (some "text")⟩

/-! ## Claim C10 (registered format without a renderer binding) -/

/-- Claim C10: when the override names a format that the registry knows but
for which the decorated handler has no renderer binding, the wrapper raises
the per-request `MimeRenderException` (`No renderer for mime "..."`) which
propagates to the caller; no 400- or 406-style response is produced (the
result is an error, not a response, whatever the `not_acceptable_callback`
configuration). -/
theorem C10_missing_renderer_raises :
    ∀ (cfg : Config) (target : Target) (args : List Val)
      (params : List (String × String)) (accept : Option String) (ctx0 : Ctx)
      (s m : String) (ms : List String),
      resolveOverride cfg ⟨args, params, accept⟩ = .ok (.str s) → s ≠ "" →
      get_mime_types s = .ok (m :: ms) → m ≠ "" →
      dictLookup cfg.renderer_dict m = Option.none →
      wrapper cfg target ⟨args, params, accept⟩ ctx0 =
        (.error (.mimeRenderException
          ("No renderer for mime \"" ++ m ++ "\"")), ctx0) := by
  intro cfg target args params accept ctx0 s m ms hov hs hmt hm hr
  have hvt : valTruthy (.str s) = true := by simp [valTruthy, hs]
  have hot : optTruthy (some m) = true := by simp [optTruthy, hm]
  have hneg : negotiatePart cfg ⟨args, params, accept⟩ =
      .error (.mimeRenderException ("No renderer for mime \"" ++ m ++ "\"")) := by
    simp [negotiatePart, hov, hvt, get_mime_types_val, hmt, hot,
      get_renderer, hr]
  exact wrapper_neg_err cfg target ⟨args, params, accept⟩ ctx0 _ hneg

/-- json-only bindings with the request-parameter override `format`. -/
def cfgJsonOnly : Config :=
  getCfg (mkConfig [("json", rJson)] Option.none Option.none (some "format")
    Option.none Option.none)

/-- Witness for C10: `format=xml` resolves in the registry but json is the
only binding, so the wrapper raises. -/
theorem C10_missing_renderer_raises_witness :
    wrapper cfgJsonOnly (fun _ => .ok (.mapping []))
        ⟨[], [("format", "xml")], some "application/json"⟩ [] =
      (.error (.mimeRenderException
        ("No renderer for mime \"" ++ "application/xml" ++ "\"")), []) :=
  C10_missing_renderer_raises cfgJsonOnly (fun _ => .ok (.mapping []))
    [] [("format", "xml")] (some "application/json") [] "xml"
    "application/xml" ["text/xml", "application/x-xml"] rfl (by decide) rfl
    (by decide) rfl

/-! ## Claim C2 (malformed Accept header: code bug) -/

/-- xml+json bindings, default json, no callback (the configuration of
`test_invalid_accept_header` in the repository's test file). -/
def cfgInvalidAccept : Config :=
  getCfg (mkConfig [("xml", rXml), ("json", rJson)] (some "json")
    Option.none Option.none Option.none Option.none)

/-- Claim C2 concerns the malformed-Accept path.  The repository's own test
(`test_invalid_accept_header` in test.py) requires a `400 Bad Request`
response with the plain-text body `Invalid Accept header requested`; the
shipped wrapper, however, calls `_best_mime` (line 206) with no handler
around the parse failure of the external `mimeparse` library, so the parse
exception propagates out of the wrapper and no response of any kind is
built.  This theorem evaluates the code at the test's failing input: Accept
`text` (a bare non-token string) yields a propagated parse error, not a 400
response. -/
theorem C2_invalid_accept_propagates :
    wrapper cfgInvalidAccept
        (fun _ => .ok (.mapping [("x", Val.str "default")]))
        ⟨[], [], some "text"⟩ [] =
      (.error (.mimeParseError "text"), []) := rfl

/-! ## Claim C4 (context cleared on every path) -/

theorem ctxClearAll_not_mem (c : Ctx) :
    ∀ k ∈ ctxKeys, ∀ kv ∈ ctxClearAll c, kv.1 ≠ k := by
  intro k hk kv hmem
  unfold ctxClearAll ctxClear at hmem
  rw [List.mem_filter] at hmem
  obtain ⟨hmem2, h3⟩ := hmem
  rw [List.mem_filter] at hmem2
  obtain ⟨hmem1, h2⟩ := hmem2
  rw [List.mem_filter] at hmem1
  obtain ⟨-, h1⟩ := hmem1
  simp only [ctxKeys, List.mem_cons, List.not_mem_nil, or_false] at hk
  rcases hk with rfl | rfl | rfl
  · exact bne_iff_ne.mp h1
  · exact bne_iff_ne.mp h2
  · exact bne_iff_ne.mp h3

/-- Claim C4: whenever the three negotiation context variables are absent
before the request, they are absent again after the wrapper finishes on
every exit path — normal return, handler exception, normalization failure,
negotiation failure, or the 406 early return (on the paths that set them,
the guaranteed-cleanup clearing removes them even without the
initial-absence hypothesis). -/
theorem C4_context_cleared :
    ∀ (cfg : Config) (target : Target) (req : Request) (ctx0 : Ctx),
      (∀ k ∈ ctxKeys, ∀ kv ∈ ctx0, kv.1 ≠ k) →
      ∀ k ∈ ctxKeys, ∀ kv ∈ (wrapper cfg target req ctx0).2, kv.1 ≠ k := by
  intro cfg target req ctx0 h0
  cases hneg : negotiatePart cfg req with
  | error e =>
    rw [wrapper_neg_err cfg target req ctx0 e hneg]
    exact h0
  | ok nr =>
    cases nr with
    | notAcc ct entity =>
      rw [wrapper_notAcc cfg target req ctx0 ct entity hneg]
      exact h0
    | render short mime r =>
      cases htgt : target req.args with
      | error e =>
        rw [wrapper_target_err cfg target req ctx0 short mime r e hneg htgt]
        exact ctxClearAll_not_mem _
      | ok result =>
        cases hnorm : normalize result with
        | error e =>
          rw [wrapper_norm_err cfg target req ctx0 short mime r result e
            hneg htgt hnorm]
          exact ctxClearAll_not_mem _
        | ok triple =>
          obtain ⟨p, st, hs⟩ := triple
          rw [wrapper_render_ok cfg target req ctx0 short mime r p st hs
            result hneg htgt hnorm]
          exact ctxClearAll_not_mem _

/-- Witness for C4: after a concrete successful request no context variable
remains set. -/
theorem C4_context_cleared_witness :
    "mimerender_mime" ∉
      ((wrapper cfgXmlOnly (fun _ => .ok (.mapping []))
          ⟨[], [], Option.none⟩ []).2).map Prod.fst := by
  intro hmem
  obtain ⟨kv, hkv, heq⟩ := List.mem_map.mp hmem
  exact C4_context_cleared cfgXmlOnly (fun _ => .ok (.mapping []))
    ⟨[], [], Option.none⟩ [] (by simp) "mimerender_mime"
    (by simp [ctxKeys]) kv hkv heq

/-! ## Claim C3 (default media types moved to the end) -/

theorem count_foldl_erase_not_mem (m : String) :
    ∀ (l S : List String), m ∉ l →
      List.count m (l.foldl (fun s x => s.erase x) S) = List.count m S := by
  intro l
  induction l with
  | nil => intro S _; rfl
  | cons a rest ih =>
    intro S h
    rw [List.foldl_cons]
    have hne : m ≠ a := fun heq => h (heq ▸ List.mem_cons_self a rest)
    rw [ih _ (fun hm => h (List.mem_cons_of_mem a hm)),
      List.count_erase_of_ne hne]

theorem count_foldl_erase_mem (m : String) :
    ∀ (l S : List String), m ∈ l → l.Nodup →
      List.count m (l.foldl (fun s x => s.erase x) S) =
        List.count m S - 1 := by
  intro l
  induction l with
  | nil => intro S h; cases h
  | cons a rest ih =>
    intro S hmem hnd
    rw [List.foldl_cons]
    rcases List.mem_cons.mp hmem with heq | hmem2
    · subst heq
      rw [count_foldl_erase_not_mem m rest _ (List.nodup_cons.mp hnd).1,
        List.count_erase_self]
    · have hne : m ≠ a := by
        intro heq
        subst heq
        exact (List.nodup_cons.mp hnd).1 hmem2
      rw [ih _ hmem2 (List.nodup_cons.mp hnd).2, List.count_erase_of_ne hne]

theorem moveToEnd_go :
    ∀ (l S suffix : List String), l.Nodup →
      (∀ x ∈ l, List.count x S = 1) → (∀ x ∈ l, x ∉ suffix) →
      List.foldlM (fun s m =>
          if s.contains m then Except.ok (s.erase m ++ [m])
          else Except.error PyErr.valueError) (S ++ suffix) l =
        .ok ((l.foldl (fun s x => s.erase x) S) ++ (suffix ++ l)) := by
  intro l
  induction l with
  | nil =>
    intro S suffix _ _ _
    simp
    rfl
  | cons a rest ih =>
    intro S suffix hnd hcount hsuf
    have haS : a ∈ S := by
      have := hcount a (List.mem_cons_self a rest)
      exact List.count_pos_iff.mp (by rw [this]; exact Nat.one_pos)
    have hcontains : (S ++ suffix).contains a = true :=
      List.elem_iff.mpr (List.mem_append_left _ haS)
    have hstep : (S ++ suffix).erase a = S.erase a ++ suffix :=
      List.erase_append_left _ haS
    have hrest : List.foldlM (fun s m =>
        if s.contains m then Except.ok (s.erase m ++ [m])
        else Except.error PyErr.valueError)
        (S.erase a ++ (suffix ++ [a])) rest =
          .ok ((rest.foldl (fun s x => s.erase x) (S.erase a)) ++
            ((suffix ++ [a]) ++ rest)) := by
      refine ih (S.erase a) (suffix ++ [a]) (List.nodup_cons.mp hnd).2
        (fun x hx => ?_) (fun x hx => ?_)
      · have hne : x ≠ a := by
          intro heq
          subst heq
          exact (List.nodup_cons.mp hnd).1 hx
        rw [List.count_erase_of_ne hne]
        exact hcount x (List.mem_cons_of_mem a hx)
      · intro hmem
        rcases List.mem_append.mp hmem with h1 | h2
        · exact hsuf x (List.mem_cons_of_mem a hx) h1
        · rcases List.mem_singleton.mp h2 with rfl
          exact (List.nodup_cons.mp hnd).1 hx
    calc List.foldlM (fun s m =>
          if s.contains m then Except.ok (s.erase m ++ [m])
          else Except.error PyErr.valueError) (S ++ suffix) (a :: rest)
        = List.foldlM (fun s m =>
            if s.contains m then Except.ok (s.erase m ++ [m])
            else Except.error PyErr.valueError)
            (S.erase a ++ (suffix ++ [a])) rest := by
          simp only [List.foldlM_cons, hcontains, hstep, List.append_assoc]
          rfl
      _ = .ok ((rest.foldl (fun s x => s.erase x) (S.erase a)) ++
            ((suffix ++ [a]) ++ rest)) := hrest
      _ = .ok (((a :: rest).foldl (fun s x => s.erase x) S) ++
            (suffix ++ (a :: rest))) := by
          simp [List.foldl_cons, List.append_assoc]

theorem moveToEnd_spec (S dm : List String) (hnd : dm.Nodup)
    (hcount : ∀ x ∈ dm, List.count x S = 1) :
    moveToEnd S dm =
      .ok ((dm.reverse.foldl (fun s x => s.erase x) S) ++ dm.reverse) ∧
    ∀ x ∈ dm, x ∉ dm.reverse.foldl (fun s x => s.erase x) S := by
  constructor
  · have h := moveToEnd_go dm.reverse S [] (List.nodup_reverse.mpr hnd)
      (fun x hx => hcount x (List.mem_reverse.mp hx))
      (fun x _ hx => List.not_mem_nil x hx)
    unfold moveToEnd
    simpa using h
  · intro x hx
    have h := count_foldl_erase_mem x dm.reverse S
      (List.mem_reverse.mpr hx) (List.nodup_reverse.mpr hnd)
    rw [hcount x hx] at h
    exact List.count_eq_zero.mp h

/-- xml+json bindings with `default='xml'` (the configuration of
`test_default_for_wildcard_query`). -/
def cfgXJxml : Config :=
  getCfg (mkConfig [("xml", rXml), ("json", rJson)] (some "xml")
    Option.none Option.none Option.none Option.none)

/-- xml+json bindings with `default='json'`. -/
def cfgXJjson : Config :=
  getCfg (mkConfig [("xml", rXml), ("json", rJson)] (some "json")
    Option.none Option.none Option.none Option.none)

/-- Claim C3: a designated default format has all of its media types moved to
the end of the derived supported sequence (the result is the original list
with those media types erased, followed by exactly those media types, none of
which remains in the prefix), which gives the default the highest priority
under the best-match tie-breaking; in particular with xml+json bindings and
`Accept: */*`, `default='xml'` negotiates `application/xml` (xml's canonical
media type) and `default='json'` negotiates `application/json`. -/
theorem C3_default_moved_to_end :
    (∀ (supported dm : List String), dm.Nodup →
      (∀ x ∈ dm, List.count x supported = 1) →
      moveToEnd supported dm =
        .ok ((dm.reverse.foldl (fun s x => s.erase x) supported) ++
          dm.reverse) ∧
      ∀ x ∈ dm, x ∉ dm.reverse.foldl (fun s x => s.erase x) supported) ∧
    negotiatePart cfgXJxml ⟨[], [], some "*/*"⟩ =
      .ok (.render "xml" "application/xml" rXml) ∧
    negotiatePart cfgXJjson ⟨[], [], some "*/*"⟩ =
      .ok (.render "json" "application/json" rJson) :=
  ⟨fun S dm hnd hc => moveToEnd_spec S dm hnd hc, rfl, rfl⟩

/-- Witness for C3 at the concrete xml default: the three xml media types end
up at the end of the supported list (reversed among themselves, canonical
last and thus of highest priority). -/
theorem C3_default_moved_to_end_witness :
    moveToEnd
        ["application/xml", "text/xml", "application/x-xml",
         "application/json"]
        ["application/xml", "text/xml", "application/x-xml"] =
      .ok ["application/json", "application/x-xml", "text/xml",
           "application/xml"] :=
  ((C3_default_moved_to_end.1
      ["application/xml", "text/xml", "application/x-xml",
       "application/json"]
      ["application/xml", "text/xml", "application/x-xml"]
      (by decide) (by decide)).1).trans (by rfl)

/-! ## Claim C8 (exception mapping layer) -/

/-- An `isinstance` relation with a user-defined exception class 2 that is a
subclass of class 1 (mirrors `MyException2(MyException1)` in
`test_map_exceptions`). -/
def isinstDemo : PyErr → Nat → Bool := fun e k =>
  match e with
  | .userExn cls _ => cls == k || (cls == 2 && k == 1)
  | _ => false

/-- txt-only bindings (the error-representation configuration of
`test_map_exceptions`, reduced to one renderer). -/
def cfgTxt : Config :=
  getCfg (mkConfig [("txt", rTxt)] Option.none Option.none Option.none
    Option.none Option.none)

/-- Claim C8: the exception-mapping wrapper scans the rules in order; with no
matching rule the original exception is re-raised unchanged; at the first
matching rule the exception is converted into a freshly negotiated response
whose sole payload field is the exception object (rendered by the newly
negotiated renderer) and whose status is the rule's status line.  The
concrete instance mirrors `test_map_exceptions`: with rules
`[(class 2, 500...), (class 1, 400...)]` and an exception of subclass 2 —
which matches both rules — the first (more specific) rule wins. -/
theorem C8_exception_mapping :
    (∀ (mapping : List (Nat × String)) (isinst : PyErr → Nat → Bool)
        (cfg : Config) (params : List (String × String))
        (accept : Option String)
        (inner : List Val → Ctx → Except PyErr Response × Ctx)
        (args : List Val) (ctx0 : Ctx) (e : PyErr) (c : Ctx),
      inner args ctx0 = (.error e, c) →
      mapping.find? (fun rule => isinst e rule.1) = Option.none →
      map_exceptions mapping isinst cfg params accept inner args ctx0 =
        (.error e, c)) ∧
    (∀ (mapping : List (Nat × String)) (isinst : PyErr → Nat → Bool)
        (cfg : Config) (params : List (String × String))
        (accept : Option String)
        (inner : List Val → Ctx → Except PyErr Response × Ctx)
        (args : List Val) (ctx0 : Ctx) (e : PyErr) (c : Ctx) (k : Nat)
        (st short m : String) (r : Renderer),
      inner args ctx0 = (.error e, c) →
      mapping.find? (fun rule => isinst e rule.1) = some (k, st) →
      negotiatePart cfg ⟨[Val.exn e, Val.str st], params, accept⟩ =
        .ok (.render short m r) →
      (map_exceptions mapping isinst cfg params accept inner args ctx0).1 =
        .ok ⟨r [("exception", Val.exn e)],
             fix_headers [] (contentTypeOf cfg.charset m), st⟩) ∧
    isinstDemo (.userExn 2 "info") 1 = true ∧
    (map_exceptions [(2, "500 Crazy Internal Error"), (1, "400 Failed")]
        isinstDemo cfgTxt [] Option.none
        (fun _ ctx => (.error (.userExn 2 "info"), ctx)) [] []).1 =
      .ok ⟨"txt-body", [("Vary", "Accept"), ("Content-Type", "text/plain")],
           "500 Crazy Internal Error"⟩ := by
  refine ⟨?_, ?_, by decide, rfl⟩
  · intro mapping isinst cfg params accept inner args ctx0 e c hinner hfind
    simp [map_exceptions, hinner, hfind]
  · intro mapping isinst cfg params accept inner args ctx0 e c k st short m r
      hinner hfind hneg
    have htgt : helperTarget [Val.exn e, Val.str st] =
        .ok (.tup2 [("exception", Val.exn e)] st) := rfl
    have hnorm : normalize (.tup2 [("exception", Val.exn e)] st) =
        .ok ([("exception", Val.exn e)], st, []) := rfl
    have hw := wrapper_render_ok cfg helperTarget
      ⟨[Val.exn e, Val.str st], params, accept⟩ c short m r
      [("exception", Val.exn e)] st [] (.tup2 [("exception", Val.exn e)] st)
      hneg htgt hnorm
    simp [map_exceptions, hinner, hfind, hw]

/-- Witness for C8: the no-match case re-raises at a concrete input, and a
first-matching rule produces the negotiated response at a concrete input. -/
theorem C8_exception_mapping_witness :
    map_exceptions [(7, "500 Oops")] isinstDemo cfgTxt [] Option.none
        (fun _ ctx => (.error (.valueError), ctx)) [] [] =
      (.error (.valueError), []) ∧
    (map_exceptions [(1, "400 Failed")] isinstDemo cfgTxt [] Option.none
        (fun _ ctx => (.error (.userExn 1 "info"), ctx)) [] []).1 =
      .ok ⟨rTxt [("exception", Val.exn (.userExn 1 "info"))],
           fix_headers [] (contentTypeOf cfgTxt.charset "text/plain"),
           "400 Failed"⟩ :=
  ⟨C8_exception_mapping.1 [(7, "500 Oops")] isinstDemo cfgTxt []
      Option.none (fun _ ctx => (.error (.valueError), ctx)) [] []
      (.valueError) [] rfl rfl,
   C8_exception_mapping.2.1 [(1, "400 Failed")] isinstDemo cfgTxt []
      Option.none (fun _ ctx => (.error (.userExn 1 "info"), ctx)) [] []
      (.userExn 1 "info") [] 1 "400 Failed" "txt" "text/plain" rTxt
      rfl rfl rfl⟩

/-! ## Claim C9 (response-shape normalization) -/

/-- Claim C9: the response normalizer maps a bare mapping to (mapping,
`200 OK`, no extra headers); a 1-element tuple unwraps to the bare-mapping
case; a 2-element tuple carries its status line with no extra headers; a
3-element tuple carries status and headers, with a key-to-value headers
mapping normalized to its list of pairs; and tuples of any other length
(zero, or four and more) fail with `ValueError` (the code's
`MalformedHandlerResult`). -/
theorem C9_normalizer_shapes :
    (∀ p : Payload, normalize (.mapping p) = .ok (p, "200 OK", [])) ∧
    (∀ p : Payload, normalize (.tup1 p) = .ok (p, "200 OK", [])) ∧
    (∀ (p : Payload) (st : String),
      normalize (.tup2 p st) = .ok (p, st, [])) ∧
    (∀ (p : Payload) (st : String) (hs : List (String × String)),
      normalize (.tup3 p st (.hlist hs)) = .ok (p, st, hs) ∧
      normalize (.tup3 p st (.hdict hs)) = .ok (p, st, hs)) ∧
    normalize .tup0 = .error .valueError ∧
    (∀ extra : Nat, normalize (.tupMore extra) = .error .valueError) :=
  ⟨fun _ => rfl, fun _ => rfl, fun _ _ => rfl,
   fun _ _ _ => ⟨rfl, rfl⟩, rfl, fun _ => rfl⟩

end Mimerender
